import Mathlib

/-!
Shallow embedding of the API gateway core (circuit breaker, rate limiter,
service registry resolution, JWT validation, middleware exemptions, health
monitoring, readiness) translated from the repository sources, together with
theorems settling the specification claims.
-/

namespace Gateway

/-! ### Circuit breaker — src/app/services/circuit_breaker_service.py -/

inductive CircuitState where
  | closed
  | open_
  | half_open
deriving DecidableEq, Repr

/-- State of `CircuitBreaker` (constructor parameters plus mutable fields).
Times are in whole seconds. -/
structure Breaker where
  failure_threshold : Nat
  recovery_timeout : Nat
  half_open_max_calls : Nat
  state : CircuitState
  failure_count : Nat
  success_count : Nat
  last_failure_time : Option Nat
  half_open_calls : Nat
deriving DecidableEq, Repr

/-- `CircuitBreaker.__init__`. -/
def Breaker.init (ft rt hm : Nat) : Breaker :=
  { failure_threshold := ft
    recovery_timeout := rt
    half_open_max_calls := hm
    state := .closed
    failure_count := 0
    success_count := 0
    last_failure_time := none
    half_open_calls := 0 }

/-- `CircuitBreaker.call`: returns whether the call is admitted, plus the
updated breaker.  `now` is the current time in seconds; the elapsed time
since the last failure is `now - t`. -/
def Breaker.call (b : Breaker) (now : Nat) : Bool × Breaker :=
  match b.state with
  | .closed => (true, b)
  | .open_ =>
      match b.last_failure_time with
      | some t =>
          if b.recovery_timeout ≤ now - t then
            (true, { b with state := .half_open, half_open_calls := 0 })
          else
            (false, b)
      | none => (false, b)
  | .half_open =>
      if b.half_open_calls < b.half_open_max_calls then
        (true, { b with half_open_calls := b.half_open_calls + 1 })
      else
        (false, b)

/-- `CircuitBreaker.record_success`. -/
def Breaker.record_success (b : Breaker) : Breaker :=
  match b.state with
  | .half_open =>
      let sc := b.success_count + 1
      if b.half_open_max_calls ≤ sc then
        { b with state := .closed, failure_count := 0, success_count := 0,
                 half_open_calls := 0 }
      else
        { b with success_count := sc }
  | .closed =>
      if b.failure_count > 0 then { b with failure_count := 0 } else b
  | .open_ => b

/-- `CircuitBreaker.record_failure`. -/
def Breaker.record_failure (b : Breaker) (now : Nat) : Breaker :=
  let b1 := { b with last_failure_time := some now }
  match b1.state with
  | .half_open =>
      { b1 with state := .open_, success_count := 0, half_open_calls := 0 }
  | .closed =>
      let fc := b1.failure_count + 1
      if fc ≥ b1.failure_threshold then
        { b1 with state := .open_, failure_count := fc }
      else
        { b1 with failure_count := fc }
  | .open_ => b1

/-- Breaker states reachable from a freshly constructed breaker through the
three public operations. -/
inductive BreakerReachable : Breaker → Prop where
  | init (ft rt hm : Nat) : BreakerReachable (Breaker.init ft rt hm)
  | callStep (b : Breaker) (now : Nat) :
      BreakerReachable b → BreakerReachable (b.call now).2
  | succStep (b : Breaker) :
      BreakerReachable b → BreakerReachable b.record_success
  | failStep (b : Breaker) (now : Nat) :
      BreakerReachable b → BreakerReachable (b.record_failure now)

/-- Number of admissions (results `true` of `call`) in a run of `k`
consecutive `call` invocations at time `now`. -/
def admitCount (b : Breaker) (now : Nat) : Nat → Nat
  | 0 => 0
  | k + 1 =>
      let r := b.call now
      (cond r.1 1 0) + admitCount r.2 now k

/-! ### Rate limiter — src/app/services/rate_limit_service.py -/

/-- In-memory storage: key mapped to `(count, window_start)`, insertion
ordered. -/
abbrev RLStorage := List (String × Nat × Nat)

/-- Dictionary lookup. -/
def rlLookup (st : RLStorage) (key : String) : Option (Nat × Nat) :=
  (st.find? (fun e => e.1 = key)).map (fun e => e.2)

/-- Dictionary assignment `self._storage[key] = v`. -/
def rlSet : RLStorage → String → Nat × Nat → RLStorage
  | [], key, v => [(key, v)]
  | e :: rest, key, v =>
      if e.1 = key then (key, v) :: rest else e :: rlSet rest key v

/-- `RateLimitService.check_rate_limit`: returns
`((allowed, remaining, reset_at), updated storage)`.  `remaining` is an
integer because `limit - 1` can be negative when `limit = 0`. -/
def check_rate_limit (st : RLStorage) (key : String) (limit : Nat)
    (window_seconds : Nat) (now : Nat) : (Bool × Int × Nat) × RLStorage :=
  match rlLookup st key with
  | none =>
      ((true, (limit : Int) - 1, now + window_seconds), rlSet st key (1, now))
  | some (count, window_start) =>
      let window_end := window_start + window_seconds
      if now > window_end then
        ((true, (limit : Int) - 1, now + window_seconds), rlSet st key (1, now))
      else if count ≥ limit then
        ((false, 0, window_end), st)
      else
        ((true, (limit : Int) - ((count : Int) + 1), window_end),
         rlSet st key (count + 1, window_start))

/-- Configured per-scope limits of `RateLimitService`. -/
structure RLService where
  per_user_per_minute : Nat
  per_tenant_per_minute : Nat
  per_ip_per_minute : Nat
deriving DecidableEq, Repr

/-- `RateLimitService.check_all_limits`: scopes are consulted in the order
IP, user, tenant; the first denial short-circuits.  On the all-allow path the
source returns the `remaining` and `reset_at` variables left over from the
last executed check when `user_id` is supplied, and `0` / `now` otherwise. -/
def check_all_limits (svc : RLService) (st0 : RLStorage) (now : Nat)
    (user_id tenant_id ip_address : Option String) :
    (Bool × Int × Nat × String) × RLStorage := Id.run do
  let mut st := st0
  let mut remaining : Int := 0
  let mut reset_at : Nat := now
  if let some ipa := ip_address then
    let r := check_rate_limit st ("ip:" ++ ipa) svc.per_ip_per_minute 60 now
    st := r.2
    remaining := r.1.2.1
    reset_at := r.1.2.2
    if r.1.1 = false then
      return ((false, r.1.2.1, r.1.2.2, "ip"), st)
  if let some uid := user_id then
    let r := check_rate_limit st ("user:" ++ uid) svc.per_user_per_minute 60 now
    st := r.2
    remaining := r.1.2.1
    reset_at := r.1.2.2
    if r.1.1 = false then
      return ((false, r.1.2.1, r.1.2.2, "user"), st)
  if let some tid := tenant_id then
    let r := check_rate_limit st ("tenant:" ++ tid) svc.per_tenant_per_minute 60 now
    st := r.2
    remaining := r.1.2.1
    reset_at := r.1.2.2
    if r.1.1 = false then
      return ((false, r.1.2.1, r.1.2.2, "tenant"), st)
  return ((true, if user_id.isSome then remaining else 0,
           if user_id.isSome then reset_at else now, "none"), st)

/-! ### Service registry — src/app/config.py (SERVICE_REGISTRY, default
configuration values) -/

/-- One entry of `SERVICE_REGISTRY`. -/
structure ServiceConfig where
  url : String
  path_prefix : String
  health_check_path : String
  timeout : Nat
  critical : Bool
deriving DecidableEq, Repr

/-- `SERVICE_REGISTRY`, in Python dict insertion order, with the default
configuration values from `Settings`. -/
def SERVICE_REGISTRY : List (String × ServiceConfig) :=
  [ ("auth-service",
     { url := "http://localhost:3001", path_prefix := "/api/v1/auth",
       health_check_path := "/health", timeout := 5, critical := true }),
    ("authz-service",
     { url := "http://localhost:8002", path_prefix := "/api/v1/authz",
       health_check_path := "/health", timeout := 5, critical := true }),
    ("profile-service",
     { url := "http://localhost:8006", path_prefix := "/api/v1/profiles",
       health_check_path := "/health", timeout := 30, critical := true }),
    ("loan-service",
     { url := "http://localhost:8005", path_prefix := "/api/v1/loans",
       health_check_path := "/health", timeout := 30, critical := true }),
    ("document-service",
     { url := "http://localhost:8001", path_prefix := "/api/v1/documents",
       health_check_path := "/health", timeout := 30, critical := false }),
    ("notification-service",
     { url := "http://localhost:8004", path_prefix := "/api/v1/notifications",
       health_check_path := "/health", timeout := 30, critical := false }),
    ("audit-service",
     { url := "http://localhost:8008", path_prefix := "/api/v1/audit",
       health_check_path := "/health", timeout := 30, critical := false }) ]

/-- Python's `str.startswith`, computed structurally on the character
lists so that concrete instances reduce in the kernel. -/
def pyStartsWith (s pre : String) : Bool :=
  pre.data.isPrefixOf s.data

/-! ### Path resolution — src/app/services/service_discovery.py -/

/-- `ServiceDiscovery.get_service_by_path`: iterates the registry in
insertion order and returns the first entry whose `path_prefix` is a prefix
of the path. -/
def get_service_by_path (path : String) : Option (String × String) :=
  (SERVICE_REGISTRY.find? (fun e => pyStartsWith path (ServiceConfig.path_prefix e.2))).map
    (fun e => (e.1, e.2.url))

/-- Resolution step of `proxy_request` (src/app/routes/proxy.py): a path with
no matching service raises HTTP 404. -/
def proxyResolve (path : String) : Except Nat (String × String) :=
  match get_service_by_path path with
  | none => .error 404
  | some x => .ok x

/-! ### Downstream forwarding and error translation —
src/app/clients/service_client.py and src/app/routes/proxy.py -/

/-- Outcome of the raw `httpx` call made by `ServiceClient.forward_request`:
either a response with a status code, or one of the exception classes the
code distinguishes. -/
inductive DownstreamResult where
  | response (statusCode : Nat)
  | timeoutExc
  | requestErrorExc
  | otherExc
deriving DecidableEq, Repr

/-- Exceptions observable by `proxy_request` around the forwarding call. -/
inductive PyExc where
  | httpTimeout
  | httpRequestError
  | httpException (statusCode : Nat)
  | otherError
deriving DecidableEq, Repr

/-- `ServiceClient.forward_request`: returns the downstream response status,
or raises.  Each `httpx` exception is caught and re-raised as a FastAPI
`HTTPException` (504 for timeouts, 502 for request errors, 500 otherwise). -/
def forward_request (d : DownstreamResult) : Except PyExc Nat :=
  match d with
  | .response s => .ok s
  | .timeoutExc => .error (.httpException 504)
  | .requestErrorExc => .error (.httpException 502)
  | .otherExc => .error (.httpException 500)

/-- The `try/except` clauses of `proxy_request` around the forwarding call,
in source order: `httpx.TimeoutException` maps to 504, `httpx.RequestError`
to 502, and any other exception (`HTTPException` included) to 500. -/
def proxyCatch (e : PyExc) : Nat :=
  match e with
  | .httpTimeout => 504
  | .httpRequestError => 502
  | .httpException _ => 500
  | .otherError => 500

/-- The forwarding section of `proxy_request`: returns the gateway response
status plus whether a breaker failure (`true`) or success (`false`) was
recorded for the service. -/
def proxyForward (d : DownstreamResult) : Nat × Bool :=
  match forward_request d with
  | .ok s => (s, false)
  | .error e => (proxyCatch e, true)

/-! ### JWT validation — src/app/services/jwt_service.py -/

/-- Claims carried by a token, restricted to the ones the service reads. -/
structure JwtPayload where
  exp : Option Int
  user_id : Option String
  sub : Option String
  tenant_id : Option String
deriving DecidableEq, Repr

/-- A compact signed token: whether its signature verifies under the
configured symmetric key and algorithm, and its claim set. -/
structure JwtToken where
  sigOk : Bool
  payload : JwtPayload
deriving DecidableEq, Repr

/-- Python truthiness of an optional string (`None` and `""` are falsy). -/
def truthy : Option String → Bool
  | none => false
  | some s => !(s == "")

/-- Modelled from the library the source calls: `jose.jwt.decode` verifies
the signature against the key and algorithm and, when an `exp` claim is
present, rejects the token once `exp` lies in the past; on any failure the
source's handler turns the raised `JWTError` into `None`. -/
def jose_decode (now : Int) (t : JwtToken) : Option JwtPayload :=
  if t.sigOk && (match t.payload.exp with
                 | some e => decide (now ≤ e)
                 | none => true) then
    some t.payload
  else
    none

/-- `JWTService.validate_token`: decode, then re-check `exp` when present,
then require a truthy `user_id` claim; every failure returns `None`. -/
def validate_token (now : Int) (t : JwtToken) : Option JwtPayload :=
  match jose_decode now t with
  | none => none
  | some payload =>
      if (match payload.exp with
          | some e => decide (now > e)
          | none => false) then
        none
      else if !(truthy payload.user_id) then
        none
      else
        some payload

/-- `JWTService.get_user_id`: `payload.get("user_id") or payload.get("sub")`. -/
def get_user_id (p : JwtPayload) : Option String :=
  if truthy p.user_id then p.user_id else p.sub

/-! ### Middleware path exemptions — src/app/middleware.py -/

/-- `JWTAuthMiddleware.EXCLUDED_PATHS`. -/
def jwtExcludedPaths : List String :=
  [ "/health", "/healthz", "/ready", "/docs", "/redoc", "/openapi.json",
    "/api/v1/auth/login", "/api/v1/auth/register" ]

/-- `RateLimitMiddleware.EXCLUDED_PATHS`. -/
def rateLimitExcludedPaths : List String :=
  [ "/health", "/healthz", "/ready", "/docs", "/redoc", "/openapi.json" ]

/-- `JWTAuthMiddleware.dispatch` skips authentication when the request path
starts with an excluded path. -/
def jwtAuthSkips (path : String) : Bool :=
  jwtExcludedPaths.any (fun p => pyStartsWith path p)

/-- `RateLimitMiddleware.dispatch` skips rate limiting when the request path
starts with an excluded path. -/
def rateLimitSkips (path : String) : Bool :=
  rateLimitExcludedPaths.any (fun p => pyStartsWith path p)

/-! ### Health monitoring — src/app/services/service_discovery.py and
src/app/clients/service_client.py -/

/-- Mutable per-service health record (`ServiceHealth`). -/
structure HealthRecord where
  status : String
  consecutive_failures : Nat
  error : Option String
deriving DecidableEq, Repr

/-- `ServiceHealth.__init__`. -/
def HealthRecord.init : HealthRecord :=
  { status := "unknown", consecutive_failures := 0, error := none }

/-- Outcome of one health probe: a response with a status code, or a
transport error with a message. -/
inductive ProbeResult where
  | response (statusCode : Nat)
  | failure (msg : String)
deriving DecidableEq, Repr

/-- `ServiceClient.health_check`: `True` exactly when the probe returned
status code 200; every exception is caught and yields `False`. -/
def health_check (r : ProbeResult) : Bool :=
  match r with
  | .response c => c == 200
  | .failure _ => false

/-- The update `ServiceDiscovery.check_service_health` applies to the
service's health record given the probe outcome. -/
def check_service_health (h : HealthRecord) (probe : ProbeResult) : HealthRecord :=
  if health_check probe then
    { h with status := "healthy", consecutive_failures := 0, error := none }
  else
    let cf := h.consecutive_failures + 1
    { h with status := if cf ≥ 3 then "unhealthy" else "degraded",
             consecutive_failures := cf,
             error := some "Health check returned non-200 status" }

/-! ### Readiness — src/app/routes/health.py and
ServiceDiscovery.are_critical_services_healthy -/

/-- The monitor's health map, keyed by service name. -/
abbrev HealthMap := List (String × HealthRecord)

/-- Lookup in the health map (`self.service_health.get(name)`). -/
def healthLookup (hm : HealthMap) (name : String) : Option HealthRecord :=
  (hm.find? (fun e => e.1 = name)).map (fun e => e.2)

/-- `ServiceDiscovery.are_critical_services_healthy`: `False` as soon as a
critical registry entry has no record or a record whose status is not
`healthy`. -/
def are_critical_services_healthy (hm : HealthMap) : Bool :=
  SERVICE_REGISTRY.all (fun e =>
    !e.2.critical ||
      (match healthLookup hm e.1 with
       | some h => h.status == "healthy"
       | none => false))

/-- The `/ready` endpoint with an initialized service discovery: HTTP 200
when every critical service is healthy, 503 otherwise; the body reports the
monitor's full health map. -/
def ready (hm : HealthMap) : Nat × HealthMap :=
  (if are_critical_services_healthy hm then 200 else 503, hm)

/-! ### Theorems settling the claims -/

/-- Claim C7: for every scope key, positive limit L and window W, a
rate-limit check behaves as the fixed-window algorithm: a fresh or expired
window installs `(1, now)` and allows with `remaining = L - 1` and
`reset_at = now + W`; a saturated window (`count ≥ L`) denies with
`remaining = 0` and `reset_at = window_start + W` leaving the stored cell
unchanged; otherwise the count is incremented and the check allows with
`remaining = L - (count + 1)` and `reset_at = window_start + W`. -/
theorem C7_fixed_window (st : RLStorage) (key : String)
    (limit window now : Nat) (hpos : 0 < limit) :
    ((rlLookup st key = none ∨
        ∃ c ws, rlLookup st key = some (c, ws) ∧ ws + window < now) →
      check_rate_limit st key limit window now =
        ((true, (limit : Int) - 1, now + window), rlSet st key (1, now)))
    ∧ (∀ c ws, rlLookup st key = some (c, ws) → now ≤ ws + window →
        limit ≤ c →
      check_rate_limit st key limit window now = ((false, 0, ws + window), st))
    ∧ (∀ c ws, rlLookup st key = some (c, ws) → now ≤ ws + window →
        c < limit →
      check_rate_limit st key limit window now =
        ((true, (limit : Int) - ((c : Int) + 1), ws + window),
         rlSet st key (c + 1, ws))) := by
  refine ⟨?_, ?_, ?_⟩
  · rintro (h | ⟨c, ws, h, hexp⟩)
    · simp [check_rate_limit, h]
    · simp [check_rate_limit, h, hexp]
  · intro c ws h hin hsat
    have h1 : ¬ (ws + window < now) := by omega
    simp [check_rate_limit, h, h1, hsat]
  · intro c ws h hin hlt
    have h1 : ¬ (ws + window < now) := by omega
    have h2 : ¬ (limit ≤ c) := by omega
    simp [check_rate_limit, h, h1, h2]

/-- Witness for C7: a cell at count 2 in a live window with limit 5 is
incremented and allowed. -/
theorem C7_fixed_window_witness :
    check_rate_limit [("k", (2, 0))] "k" 5 60 30 =
      ((true, (5 : Int) - ((2 : Int) + 1), 0 + 60),
       rlSet [("k", (2, 0))] "k" (2 + 1, 0)) :=
  (C7_fixed_window [("k", (2, 0))] "k" 5 60 30 (by decide)).2.2 2 0
    (by decide) (by decide) (by decide)

/-- Claim C10: the first check of a window (cell absent or window expired)
is admitted without comparing the fresh count against the limit: the code
installs `(1, now)` and answers allowed with `remaining = limit - 1`, so at
`limit = 0` the first request is still allowed and `remaining = -1`. -/
theorem C10_first_request_unchecked (st : RLStorage) (key : String)
    (limit window now : Nat)
    (h : rlLookup st key = none ∨
        ∃ c ws, rlLookup st key = some (c, ws) ∧ ws + window < now) :
    check_rate_limit st key limit window now =
      ((true, (limit : Int) - 1, now + window), rlSet st key (1, now))
    ∧ (limit = 0 →
        (check_rate_limit st key limit window now).1.1 = true ∧
        (check_rate_limit st key limit window now).1.2.1 = -1) := by
  have hmain : check_rate_limit st key limit window now =
      ((true, (limit : Int) - 1, now + window), rlSet st key (1, now)) := by
    rcases h with h | ⟨c, ws, h, hexp⟩
    · simp [check_rate_limit, h]
    · simp [check_rate_limit, h, hexp]
  refine ⟨hmain, fun h0 => ?_⟩
  rw [hmain, h0]
  exact ⟨rfl, rfl⟩

/-- Witness for C10: with an empty storage and limit 0 the first request is
allowed and the reported remaining is -1. -/
theorem C10_first_request_unchecked_witness :
    (check_rate_limit [] "k" 0 60 5).1.1 = true ∧
    (check_rate_limit [] "k" 0 60 5).1.2.1 = -1 :=
  (C10_first_request_unchecked [] "k" 0 60 5 (Or.inl rfl)).2 rfl

/-- Claim C6 (code behavior): on the all-allow path `check_all_limits` does
not return the minimum remaining across the consulted scopes.  With only the
IP scope consulted (fresh storage, per-IP limit 10) it reports
`remaining = 0` where the claim requires 9; with all three scopes consulted
(limits 1000/100000/10) it reports the tenant scope's 99999 where the claim
requires the minimum 9. -/
theorem C6_check_all_limits_behavior :
    check_all_limits ⟨1000, 100000, 10⟩ [] 0 none none (some "1.2.3.4") =
      ((true, 0, 0, "none"), [("ip:1.2.3.4", 1, 0)])
    ∧ check_all_limits ⟨1000, 100000, 10⟩ [] 0 (some "u1") (some "t1")
        (some "1.2.3.4") =
      ((true, 99999, 60, "none"),
       [("ip:1.2.3.4", 1, 0), ("user:u1", 1, 0), ("tenant:t1", 1, 0)]) := by
  decide

/-- Claim C2 (code behavior): every downstream transport failure reaches the
client as HTTP 500, because `forward_request` first converts the `httpx`
exception into an `HTTPException` (504/502/500) and `proxy_request`'s own
`except httpx.TimeoutException` / `except httpx.RequestError` clauses — which
would produce the claimed 504/502 — can then never match, so the generic
handler returns 500.  A breaker failure is recorded in all three cases, and
successful responses pass through. -/
theorem C2_downstream_error_translation :
    proxyForward .timeoutExc = (500, true)
    ∧ proxyForward .requestErrorExc = (500, true)
    ∧ proxyForward .otherExc = (500, true)
    ∧ (∀ s, proxyForward (.response s) = (s, false))
    ∧ forward_request .timeoutExc = .error (.httpException 504)
    ∧ forward_request .requestErrorExc = .error (.httpException 502)
    ∧ proxyCatch .httpTimeout = 504
    ∧ proxyCatch .httpRequestError = 502 :=
  ⟨rfl, rfl, rfl, fun _ => rfl, rfl, rfl, rfl, rfl⟩

/-- Counterexample to claim C3: for the path `/api/v1/authz/check` the
longer registered prefix `/api/v1/authz` (authz-service) matches, yet
resolution returns auth-service, because iteration order — not prefix
length — decides and auth-service's `/api/v1/auth` comes first. -/
theorem C3_claim_counterexample :
    pyStartsWith "/api/v1/authz/check" "/api/v1/authz" = true
    ∧ ("authz-service",
        ({ url := "http://localhost:8002", path_prefix := "/api/v1/authz",
           health_check_path := "/health", timeout := 5,
           critical := true } : ServiceConfig)) ∈ SERVICE_REGISTRY
    ∧ get_service_by_path "/api/v1/authz/check" =
        some ("auth-service", "http://localhost:3001")
    ∧ "auth-service" ≠ "authz-service" := by
  decide

/-- Claim C3 amended: resolution scans the registry in insertion order and
returns the first service whose `path_prefix` is a prefix of the path
(deterministic, but first match rather than longest match); when no prefix
matches, resolution fails and the proxy answers 404; consequently a path
under `/api/v1/authz` resolves to auth-service, whose prefix `/api/v1/auth`
appears earlier in the registry. -/
theorem C3_resolution :
    (∀ path, get_service_by_path path = none ↔
       ∀ e ∈ SERVICE_REGISTRY, pyStartsWith path (ServiceConfig.path_prefix e.2) = false)
    ∧ (∀ path, proxyResolve path = .error 404 ↔ get_service_by_path path = none)
    ∧ (∀ path n u, get_service_by_path path = some (n, u) →
       ∃ cfg, (n, cfg) ∈ SERVICE_REGISTRY ∧ u = cfg.url ∧
         pyStartsWith path cfg.path_prefix = true)
    ∧ get_service_by_path "/api/v1/authz/check" =
        some ("auth-service", "http://localhost:3001") := by
  refine ⟨?_, ?_, ?_, by decide⟩
  · intro path
    simp [get_service_by_path, List.find?_eq_none]
  · intro path
    unfold proxyResolve
    cases h : get_service_by_path path <;> simp [h]
  · intro path n u h
    unfold get_service_by_path at h
    rcases Option.map_eq_some'.mp h with ⟨e, hfind, heq⟩
    refine ⟨e.2, ?_, ?_, ?_⟩
    · have hmem := List.mem_of_find?_eq_some hfind
      have hn : e.1 = n := congrArg Prod.fst heq
      have hpair : (n, e.2) = e := by rw [← hn]
      rw [hpair]
      exact hmem
    · exact (congrArg Prod.snd heq).symm
    · simpa using List.find?_some hfind

/-- Witness for C3: the resolved entry for a loan path is a registry member
whose prefix matches. -/
theorem C3_resolution_witness :
    ∃ cfg, ("loan-service", cfg) ∈ SERVICE_REGISTRY ∧
      "http://localhost:8005" = cfg.url ∧
      pyStartsWith "/api/v1/loans/42" cfg.path_prefix = true :=
  C3_resolution.2.2.1 "/api/v1/loans/42" "loan-service"
    "http://localhost:8005" (by decide)

/-- Counterexample to claim C5: `/api/v1/auth/login` is exempt from
authentication but not from rate limiting — it is missing from
`RateLimitMiddleware.EXCLUDED_PATHS`, so the limiter is consulted and can
answer 429 for it. -/
theorem C5_claim_counterexample :
    jwtAuthSkips "/api/v1/auth/login" = true
    ∧ rateLimitSkips "/api/v1/auth/login" = false
    ∧ "/api/v1/auth/login" ∉ rateLimitExcludedPaths := by
  decide

/-- Claim C5 amended: the six infrastructure paths (`/health`, `/healthz`,
`/ready`, `/docs`, `/redoc`, `/openapi.json`) are exempt from both
authentication and rate limiting; `/api/v1/auth/login` and
`/api/v1/auth/register` are exempt from authentication only — rate limiting
still applies to them.  Every rate-limit-exempt path is auth-exempt, and
auth exemption is exactly rate-limit exemption extended by the two auth
paths. -/
theorem C5_exempt_paths :
    (∀ path, rateLimitSkips path = true → jwtAuthSkips path = true)
    ∧ (∀ path, jwtAuthSkips path =
        (rateLimitSkips path || pyStartsWith path "/api/v1/auth/login" ||
         pyStartsWith path "/api/v1/auth/register")) := by
  have hmain : ∀ path, jwtAuthSkips path =
      (rateLimitSkips path || pyStartsWith path "/api/v1/auth/login" ||
       pyStartsWith path "/api/v1/auth/register") := by
    intro path
    simp [jwtAuthSkips, rateLimitSkips, jwtExcludedPaths,
          rateLimitExcludedPaths, Bool.or_assoc]
  refine ⟨fun path h => ?_, hmain⟩
  rw [hmain path, h]
  rfl

/-- Witness for C5: `/healthz` is exempt from authentication because it is
exempt from rate limiting. -/
theorem C5_exempt_paths_witness : jwtAuthSkips "/healthz" = true :=
  C5_exempt_paths.1 "/healthz" (by decide)

/-- Token used in the counterexample to claim C4: valid signature, `exp`
present and in the future, subject present via `sub` only. -/
def c4_token : JwtToken := ⟨true, ⟨some 1000, none, some "alice", none⟩⟩

/-- Counterexample to claim C4: a token whose signature verifies, whose
`exp` is present and not in the past, and which carries a subject claim
(`sub = "alice"`) is nevertheless rejected — `validate_token` insists on a
truthy `user_id` claim and never consults `sub`. -/
theorem C4_claim_counterexample :
    c4_token.sigOk = true
    ∧ c4_token.payload.exp = some 1000
    ∧ ((0 : Int) ≤ 1000)
    ∧ truthy c4_token.payload.sub = true
    ∧ validate_token 0 c4_token = none := by
  decide

/-- Claim C4 amended: `validate_token` returns a claim set iff the
signature verifies under the configured key and algorithm, the `exp` claim
— when present — is not in the past (a token without `exp` is accepted),
and the `user_id` claim is present and truthy (`sub` alone does not
suffice; it is consulted only by `get_user_id` after validation).  Every
rejection is the single value `None`, so the result never discloses which
condition failed. -/
theorem C4_validate_token (now : Int) (t : JwtToken) :
    ((validate_token now t).isSome = true ↔
      (t.sigOk = true ∧ (∀ e, t.payload.exp = some e → now ≤ e) ∧
       truthy t.payload.user_id = true))
    ∧ (validate_token now t = none ∨ validate_token now t = some t.payload) := by
  cases hs : t.sigOk
  · simp [validate_token, jose_decode, hs]
  · cases he : t.payload.exp with
    | none =>
        cases hu : truthy t.payload.user_id <;>
          simp [validate_token, jose_decode, hs, he, hu]
    | some e =>
        by_cases hle : now ≤ e
        · have hgt : ¬ (now > e) := by omega
          cases hu : truthy t.payload.user_id <;>
            exact ⟨by simp [validate_token, jose_decode, hs, he, hle, hgt, hu],
                   by simp [validate_token, jose_decode, hs, he, hle, hgt, hu]⟩
        · have hgt : (now > e) := by omega
          have hfail : validate_token now t = none := by
            simp [validate_token, jose_decode, hs, he, hle]
          constructor
          · constructor
            · intro hsome
              rw [hfail] at hsome
              simp at hsome
            · rintro ⟨-, hall, -⟩
              exact absurd (hall e rfl) hle
          · exact Or.inl hfail

/-- Witness for C4: a token with a valid signature, a future `exp` and a
truthy `user_id` is accepted. -/
theorem C4_validate_token_witness :
    (validate_token 0 ⟨true, ⟨some 100, some "u-1", none, none⟩⟩).isSome = true :=
  (C4_validate_token 0 ⟨true, ⟨some 100, some "u-1", none, none⟩⟩).1.mpr
    ⟨rfl, by intro e he; injection he with h; omega, rfl⟩

/-- Counterexample to claim C8: a probe answering HTTP 204 — a 2xx
response — is treated as a failed probe: `health_check` compares against
exactly 200, so the recorded status becomes `degraded`, not `healthy`. -/
theorem C8_claim_counterexample :
    (200 ≤ 204 ∧ 204 < 300)
    ∧ health_check (.response 204) = false
    ∧ (check_service_health HealthRecord.init (.response 204)).status =
        "degraded"
    ∧ (check_service_health HealthRecord.init (.response 204)).status ≠
        "healthy" := by
  decide

/-- Claim C8 amended: after each probe, a successful probe (response status
exactly 200) sets status `healthy` and resets `consecutive_failures`; a
failed probe (non-200 response — other 2xx included — or transport error)
increments `consecutive_failures` and sets `degraded` while the counter is
below 3 and `unhealthy` from 3 on; and status is `healthy` iff the last
probe returned exactly 200. -/
theorem C8_probe_update (h : HealthRecord) (probe : ProbeResult) :
    (health_check probe = true →
      (check_service_health h probe).status = "healthy" ∧
      (check_service_health h probe).consecutive_failures = 0)
    ∧ (health_check probe = false →
      (check_service_health h probe).consecutive_failures =
          h.consecutive_failures + 1 ∧
      ((check_service_health h probe).status = "degraded" ↔
          (check_service_health h probe).consecutive_failures < 3) ∧
      ((check_service_health h probe).status = "unhealthy" ↔
          3 ≤ (check_service_health h probe).consecutive_failures))
    ∧ ((check_service_health h probe).status = "healthy" ↔
        probe = .response 200) := by
  have hdeg : ("degraded" : String) ≠ "healthy" := by decide
  have hunh : ("unhealthy" : String) ≠ "healthy" := by decide
  have hdu : ("unhealthy" : String) ≠ "degraded" := by decide
  cases hb : health_check probe
  · by_cases h3 : h.consecutive_failures + 1 ≥ 3
    · refine ⟨by simp, fun _ => ?_, ?_⟩
      · simp [check_service_health, hb, h3, hdu, hunh]
      · constructor
        · intro hst
          exact absurd hst (by simp [check_service_health, hb, h3, hunh])
        · intro hp
          rw [hp] at hb
          simp [health_check] at hb
    · refine ⟨by simp, fun _ => ?_, ?_⟩
      · simp [check_service_health, hb, h3, hdeg, hdu.symm]
        omega
      · constructor
        · intro hst
          exact absurd hst (by simp [check_service_health, hb, h3, hdeg])
        · intro hp
          rw [hp] at hb
          simp [health_check] at hb
  · have hp : probe = .response 200 := by
      cases probe with
      | response c =>
          have : c = 200 := by simpa [health_check] using hb
          rw [this]
      | failure m => simp [health_check] at hb
    subst hp
    refine ⟨fun _ => ?_, by simp [hb], ?_⟩
    · simp [check_service_health, hb]
    · simp [check_service_health, hb]

/-- Witness for C8: a 200 probe from the initial record yields a healthy
status with zero consecutive failures. -/
theorem C8_probe_update_witness :
    (check_service_health HealthRecord.init (.response 200)).status =
      "healthy" ∧
    (check_service_health HealthRecord.init (.response 200)).consecutive_failures
      = 0 :=
  (C8_probe_update HealthRecord.init (.response 200)).1 (by decide)

/-- Claim C9: the readiness endpoint answers 200 iff every critical
registered service currently has a health record with status `healthy`, and
503 otherwise; the body reports the health record of every registered
service (the monitor initializes a record for each registry entry, which is
the coverage hypothesis). -/
theorem C9_ready (hm : HealthMap)
    (hcov : ∀ e ∈ SERVICE_REGISTRY, (healthLookup hm e.1).isSome = true) :
    ((ready hm).1 = 200 ∨ (ready hm).1 = 503)
    ∧ ((ready hm).1 = 200 ↔
        ∀ e ∈ SERVICE_REGISTRY, e.2.critical = true →
          ∃ h, healthLookup hm e.1 = some h ∧ h.status = "healthy")
    ∧ (∀ e ∈ SERVICE_REGISTRY, ∃ h, healthLookup (ready hm).2 e.1 = some h) := by
  refine ⟨?_, ?_, ?_⟩
  · unfold ready
    split <;> simp
  · have hiff : (ready hm).1 = 200 ↔
        are_critical_services_healthy hm = true := by
      unfold ready
      split <;> simp_all
    rw [hiff]
    simp only [are_critical_services_healthy, List.all_eq_true]
    refine forall_congr' fun e => forall_congr' fun _ => ?_
    cases hcrit : e.2.critical
    · simp
    · cases hl : healthLookup hm e.1 <;> simp [hl]
  · intro e he
    have hc := hcov e he
    cases hl : healthLookup hm e.1 with
    | none => rw [hl] at hc; simp at hc
    | some h => exact ⟨h, hl⟩

/-- Health map in which every registered service is healthy. -/
def allHealthyMap : HealthMap :=
  SERVICE_REGISTRY.map (fun e =>
    (e.1, { status := "healthy", consecutive_failures := 0, error := none }))

/-- Witness for C9: with every registered service healthy, the readiness
status is one of 200 and 503 (and each service has a record in the body). -/
theorem C9_ready_witness :
    ((ready allHealthyMap).1 = 200 ∨ (ready allHealthyMap).1 = 503) :=
  (C9_ready allHealthyMap (by decide)).1

/-- Invariant of the breaker state machine: outside the half-open state the
success counter is zero — it is only ever incremented in half-open and is
cleared on every transition out of it, so in particular it is already zero
whenever the breaker sits in the open state. -/
theorem success_count_zero_outside_half_open (b : Breaker)
    (hr : BreakerReachable b) : b.state ≠ .half_open → b.success_count = 0 := by
  induction hr with
  | init ft rt hm => intro _; rfl
  | callStep b now hb ih =>
      intro hne
      cases hs : b.state with
      | closed => simpa [Breaker.call, hs] using ih (by simp [hs])
      | open_ =>
          cases hl : b.last_failure_time with
          | some t =>
              by_cases hrec : b.recovery_timeout ≤ now - t
              · simpa [Breaker.call, hs, hl, hrec] using ih (by simp [hs])
              · simpa [Breaker.call, hs, hl, hrec] using ih (by simp [hs])
          | none => simpa [Breaker.call, hs, hl] using ih (by simp [hs])
      | half_open =>
          by_cases hc : b.half_open_calls < b.half_open_max_calls
          · exfalso
            apply hne
            simp [Breaker.call, hs, hc]
          · exfalso
            apply hne
            simp [Breaker.call, hs, hc]
  | succStep b hb ih =>
      intro hne
      cases hs : b.state with
      | half_open =>
          by_cases hm : b.half_open_max_calls ≤ b.success_count + 1
          · simp [Breaker.record_success, hs, hm]
          · exfalso
            apply hne
            simp [Breaker.record_success, hs, hm]
      | closed =>
          by_cases hf : b.failure_count > 0
          · simpa [Breaker.record_success, hs, hf] using ih (by simp [hs])
          · simpa [Breaker.record_success, hs, hf] using ih (by simp [hs])
      | open_ => simpa [Breaker.record_success, hs] using ih (by simp [hs])
  | failStep b now hb ih =>
      intro hne
      cases hs : b.state with
      | half_open => simp [Breaker.record_failure, hs]
      | closed =>
          by_cases hf : b.failure_count + 1 ≥ b.failure_threshold
          · simpa [Breaker.record_failure, hs, hf] using ih (by simp [hs])
          · simpa [Breaker.record_failure, hs, hf] using ih (by simp [hs])
      | open_ => simpa [Breaker.record_failure, hs] using ih (by simp [hs])

/-- In the half-open state any run of `call` invocations admits at most
`half_open_max_calls - half_open_calls` of them. -/
theorem admitCount_half_open_le (now : Nat) :
    ∀ (k : Nat) (b : Breaker), b.state = .half_open →
      admitCount b now k ≤ b.half_open_max_calls - b.half_open_calls := by
  intro k
  induction k with
  | zero =>
      intro b _
      simp [admitCount]
  | succ k ih =>
      intro b hb
      by_cases hc : b.half_open_calls < b.half_open_max_calls
      · have hcall : b.call now =
            (true, { b with half_open_calls := b.half_open_calls + 1 }) := by
          simp [Breaker.call, hb, hc]
        have h2 := ih { b with half_open_calls := b.half_open_calls + 1 }
          (by simpa using hb)
        have hmax : ({ b with half_open_calls := b.half_open_calls + 1 } :
            Breaker).half_open_max_calls = b.half_open_max_calls := rfl
        have hhoc : ({ b with half_open_calls := b.half_open_calls + 1 } :
            Breaker).half_open_calls = b.half_open_calls + 1 := rfl
        rw [hmax, hhoc] at h2
        have h1 : admitCount b now (k + 1) =
            1 + admitCount { b with half_open_calls := b.half_open_calls + 1 }
              now k := by
          simp [admitCount, hcall]
        rw [h1]
        omega
      · have hcall : b.call now = (false, b) := by
          simp [Breaker.call, hb, hc]
        have h1 : admitCount b now (k + 1) = admitCount b now k := by
          simp [admitCount, hcall]
        rw [h1]
        exact ih b hb

/-- Claim C1 amended: in a reachable open breaker whose recovery timeout
has elapsed, the next `call` transitions to `half_open` with
`success_count = 0` (an invariant — the transition itself does not write it)
and `half_open_calls = 0` — not 1 as claimed — and returns true; this
triggering admission is therefore not counted against the cap, so within a
half-open episode at most `HALF_OPEN_MAX_CALLS + 1` admissions in total
(counting the triggering one) return true before the state changes again. -/
theorem C1_half_open_admission (b : Breaker) (now t : Nat)
    (hr : BreakerReachable b) (hs : b.state = .open_)
    (hl : b.last_failure_time = some t)
    (he : b.recovery_timeout ≤ now - t) :
    (b.call now).1 = true
    ∧ (b.call now).2.state = .half_open
    ∧ (b.call now).2.half_open_calls = 0
    ∧ (b.call now).2.success_count = 0
    ∧ ∀ k now2,
        1 + admitCount (b.call now).2 now2 k ≤ b.half_open_max_calls + 1 := by
  have hcall : b.call now =
      (true, { b with state := .half_open, half_open_calls := 0 }) := by
    simp [Breaker.call, hs, hl, he]
  have hsc : b.success_count = 0 :=
    success_count_zero_outside_half_open b hr (by simp [hs])
  refine ⟨by simp [hcall], by simp [hcall], by simp [hcall],
          by simp [hcall, hsc], ?_⟩
  intro k now2
  have hcap := admitCount_half_open_le now2 k
    { b with state := .half_open, half_open_calls := 0 } (by simp)
  have hmax :
      ({ b with state := CircuitState.half_open, half_open_calls := 0 } :
        Breaker).half_open_max_calls = b.half_open_max_calls := rfl
  have hhoc :
      ({ b with state := CircuitState.half_open, half_open_calls := 0 } :
        Breaker).half_open_calls = 0 := rfl
  rw [hmax, hhoc] at hcap
  rw [hcall]
  simpa using by omega

/-- Breaker with default thresholds (5, 60, 3) driven open by five recorded
failures at time 0. -/
def c1_breaker : Breaker :=
  (((((Breaker.init 5 60 3).record_failure 0).record_failure 0).record_failure
      0).record_failure 0).record_failure 0

/-- Breaker state after a run of `k` consecutive `call` invocations. -/
def callRun (b : Breaker) (now : Nat) : Nat → Breaker
  | 0 => b
  | k + 1 => callRun (b.call now).2 now k

/-- Counterexample to claim C1: after the open-to-half-open transition the
code leaves `half_open_calls` at 0 (the claim says 1), and with
HALF_OPEN_MAX_CALLS = 3 a half-open episode admits 4 calls in total — the
triggering one plus three more — while the state is still `half_open`
afterwards, exceeding the claimed bound of 3. -/
theorem C1_claim_counterexample :
    c1_breaker.state = .open_
    ∧ c1_breaker.half_open_max_calls = 3
    ∧ (c1_breaker.call 60).1 = true
    ∧ (c1_breaker.call 60).2.state = .half_open
    ∧ (c1_breaker.call 60).2.half_open_calls = 0
    ∧ 1 + admitCount (c1_breaker.call 60).2 60 4 = 4
    ∧ (callRun (c1_breaker.call 60).2 60 4).state = .half_open := by
  decide

/-- Witness for C1: the amended theorem applies to the concrete breaker
opened by five failures, once 60 seconds have elapsed. -/
theorem C1_half_open_admission_witness : (c1_breaker.call 60).1 = true := by
  have hr : BreakerReachable c1_breaker := by
    unfold c1_breaker
    exact .failStep _ 0 (.failStep _ 0 (.failStep _ 0 (.failStep _ 0
      (.failStep _ 0 (.init 5 60 3)))))
  exact (C1_half_open_admission c1_breaker 60 0 hr (by decide) (by decide)
    (by decide)).1

end Gateway
